import Mathlib

/-!
# Shallow embedding of rustyline (`src/lib.rs`)

The program reads a line from the terminal.  Its externally visible behaviour
depends on: the `TERM` environment variable, whether stdin is a tty, the
results of the `tcgetattr`/`tcsetattr` syscalls, and the byte stream on stdin.
We package these into an `Env` record and translate each Rust function into a
Lean function over it.

Modelling choices:
* Terminal attributes (`termios`) are modelled as a structure holding one
  `Bool` per flag the program touches, the two control characters it sets
  (`VMIN`, `VTIME`) as naturals, and an abstract `rest` field for all state
  the program never reads or writes.  Clearing a flag with `& !FLAG` becomes
  setting the field to `false`; setting with `| FLAG` becomes `true`.
* Panics (`unwrap` on a `None`/`Err`, as in `is_unsupported_term` and
  `readline_edit`) are modelled by a dedicated `panic` outcome: a panic
  unwinds, so nothing after it runs.
* The edit loop blocks forever when the input stream is exhausted (a raw-mode
  read with VMIN=1 blocks; on a closed stream `read` returns 0 and the loop
  spins on the stale byte): outcome `diverge`.
* Writes to stdout (prompt, echo, `Pressed C-x` messages) are modelled as an
  infallible sink and are not part of the observable result.
* Each invocation of `tcsetattr` via `enable_raw_mode` / `disable_raw_mode`
  inside `readline_raw` is recorded in an event trace, so that temporal
  claims (restore exactly once) are statements about the trace.
* Rust `String::from_utf8` is modelled by a byte-level UTF-8 decoder
  (`utf8_decode`) implementing the exact validation table of RFC 3629 that
  the Rust standard library uses.
-/

namespace Rustyline

/-- Maximum buffer size for the line read (declared in the source, never used). -/
def MAX_LINE : Nat := 4096

/-- Unsupported Terminals that don't support RAW mode. -/
def UNSUPPORTED_TERM : List String := ["dumb", "cons25", "emacs"]

/-- Key strokes that rustyline should capture (byte values from the source). -/
def NULL : Nat := 0

def CTRL_A : Nat := 1

def CTRL_B : Nat := 2

def CTRL_C : Nat := 3

def CTRL_D : Nat := 4

def CTRL_E : Nat := 5

def CTRL_F : Nat := 6

def CTRL_H : Nat := 8

def TAB : Nat := 9

def CTRL_K : Nat := 11

def CTRL_L : Nat := 12

def ENTER : Nat := 13

def CTRL_N : Nat := 14

def CTRL_P : Nat := 16

def CTRL_T : Nat := 20

def CTRL_U : Nat := 21

def CTRL_W : Nat := 23

def ESC : Nat := 27

def BACKSPACE : Nat := 127

/-- Terminal attributes.  One field per flag `enable_raw_mode` manipulates;
`rest` abstracts every part of a real `termios` the program never touches. -/
structure Termios where
  brkint : Bool
  icrnl : Bool
  inpck : Bool
  istrip : Bool
  ixon : Bool
  opost : Bool
  cs8 : Bool
  echo : Bool
  icanon : Bool
  iexten : Bool
  isig : Bool
  vmin : Nat
  vtime : Nat
  rest : Nat
deriving DecidableEq

/-- A fully zeroed `Termios`, used as a concrete original state in examples. -/
def termios0 : Termios :=
  { brkint := false, icrnl := false, inpck := false, istrip := false,
    ixon := false, opost := false, cs8 := false, echo := false,
    icanon := false, iexten := false, isig := false,
    vmin := 0, vtime := 0, rest := 0 }

/-- The errno values the program distinguishes (`nix::Error::Sys(e)`);
every other errno is collapsed into `other`. -/
inductive Errno where
  | ENOTTY
  | EBADF
  | other (n : Nat)
deriving DecidableEq

/-- Events recorded by `readline_raw`: entering raw mode (the attributes
installed by `tcsetattr`) and each invocation of `disable_raw_mode` (the
attributes it restores). -/
inductive Event where
  | rawEnabled (t : Termios)
  | disableCall (t : Termios)
deriving DecidableEq

/-- `true` exactly on `disable_raw_mode` invocation events. -/
def is_disable : Event → Bool
  | .disableCall _ => true
  | .rawEnabled _ => false

/-- Observable outcome of a read: a returned line, a returned `io::Error`
(identified by its message string), a panic, or divergence. -/
inductive RLResult where
  | ok (line : String)
  | err (msg : String)
  | panic
  | diverge
deriving DecidableEq

/-- The program's environment: `TERM` (absent or its string value), whether
stdin is a tty, the result of `tcgetattr` on stdin, the result of `tcsetattr`
as a function of the attributes being installed, and the stdin byte stream. -/
structure Env where
  term : Option String
  isatty : Bool
  tcgetattr : Except Errno Termios
  tcsetattr : Termios → Except Errno Unit
  stdin : List Nat

/-- `is_a_tty`: check whether STDIN is a TTY. -/
def is_a_tty (env : Env) : Bool := env.isatty

/-- `is_unsupported_term`: `std::env::var("TERM").ok().unwrap()` panics when
`TERM` is absent (result `none`); otherwise the loop
`for iter in &UNSUPPORTED_TERM { unsupported = term == *iter }` overwrites
`unsupported` on every iteration, which the fold mirrors exactly. -/
def is_unsupported_term (term : Option String) : Option Bool :=
  match term with
  | none => none
  | some t => some (UNSUPPORTED_TERM.foldl (fun _ iter => t == iter) false)

/-- The raw attributes `enable_raw_mode` builds from the original ones:
clear BRKINT, ICRNL, INPCK, ISTRIP, IXON and OPOST, set CS8, clear ECHO,
ICANON, IEXTEN, ISIG, set `c_cc[VMIN] = 1` and `c_cc[VTIME] = 0`. -/
def raw_termios (original_term : Termios) : Termios :=
  { original_term with
    brkint := false, icrnl := false, inpck := false, istrip := false,
    ixon := false,
    opost := false,
    cs8 := true,
    echo := false, icanon := false, iexten := false, isig := false,
    vmin := 1, vtime := 0 }

/-- `enable_raw_mode`: fail with `ENOTTY` when stdin is no tty, otherwise
fetch the attributes, install the raw variant, and return the original. -/
def enable_raw_mode (env : Env) : Except Errno Termios :=
  if !(is_a_tty env) then .error .ENOTTY
  else
    match env.tcgetattr with
    | .error e => .error e
    | .ok original_term =>
      match env.tcsetattr (raw_termios original_term) with
      | .error e => .error e
      | .ok _ => .ok original_term

/-- `disable_raw_mode`: restore the captured original attributes. -/
def disable_raw_mode (env : Env) (original_termios : Termios) :
    Except Errno Unit :=
  match env.tcsetattr original_termios with
  | .error e => .error e
  | .ok _ => .ok ()

/-- `true` for a UTF-8 continuation byte (0x80–0xBF). -/
def is_cont (b : Nat) : Bool := 128 ≤ b && b ≤ 191

/-- Admissible second byte of a three-byte UTF-8 sequence with lead `b`. -/
def utf8_second3 (b c : Nat) : Bool :=
  if b = 224 then 160 ≤ c && c ≤ 191
  else if b = 237 then 128 ≤ c && c ≤ 159
  else is_cont c

/-- Admissible second byte of a four-byte UTF-8 sequence with lead `b`. -/
def utf8_second4 (b c : Nat) : Bool :=
  if b = 240 then 144 ≤ c && c ≤ 191
  else if b = 244 then 128 ≤ c && c ≤ 143
  else is_cont c

/-- UTF-8 validation and decoding as performed by Rust's
`String::from_utf8`: `none` for any malformed input (overlong forms,
surrogates and values beyond U+10FFFF are excluded by the lead/second byte
tables), otherwise the decoded scalar values. -/
def utf8_decode : List Nat → Option (List Char)
  | [] => some []
  | b :: rest =>
    if b ≤ 127 then
      match utf8_decode rest with
      | some cs => some (Char.ofNat b :: cs)
      | none => none
    else if 194 ≤ b && b ≤ 223 then
      match rest with
      | c :: rest2 =>
        if is_cont c then
          match utf8_decode rest2 with
          | some cs => some (Char.ofNat ((b - 192) * 64 + (c - 128)) :: cs)
          | none => none
        else none
      | [] => none
    else if 224 ≤ b && b ≤ 239 then
      match rest with
      | c :: d :: rest3 =>
        if utf8_second3 b c && is_cont d then
          match utf8_decode rest3 with
          | some cs =>
            some (Char.ofNat ((b - 224) * 4096 + (c - 128) * 64 + (d - 128)) :: cs)
          | none => none
        else none
      | _ => none
    else if 240 ≤ b && b ≤ 244 then
      match rest with
      | c :: d :: e :: rest4 =>
        if utf8_second4 b c && is_cont d && is_cont e then
          match utf8_decode rest4 with
          | some cs =>
            some (Char.ofNat
              ((b - 240) * 262144 + (c - 128) * 4096 + (d - 128) * 64 + (e - 128)) :: cs)
          | none => none
        else none
      | _ => none
    else none

/-- `String::from_utf8`: `none` models the `Err` case. -/
def from_utf8 (buffer : List Nat) : Option String :=
  match utf8_decode buffer with
  | some cs => some (String.mk cs)
  | none => none

/-- What the `match input[0]` in `readline_edit` does with one byte:
print a fixed message, break out of the loop (ENTER only), or echo the
byte's numeric value (the default arm).  The arms are tested in source
order; note that `TAB` (9), `BACKSPACE` (127) and `NULL` (0) are NOT among
the matched constants and fall to the default arm. -/
inductive KeyAction where
  | msg (s : String)
  | brk
  | echo
deriving DecidableEq

def key_action (b : Nat) : KeyAction :=
  if b = CTRL_A then .msg "Pressed C-a"
  else if b = CTRL_B then .msg "Pressed C-b"
  else if b = CTRL_C then .msg "Pressed C-c"
  else if b = CTRL_D then .msg "Pressed C-d"
  else if b = CTRL_E then .msg "Pressed C-e"
  else if b = CTRL_F then .msg "Pressed C-f"
  else if b = CTRL_H then .msg "Pressed C-h"
  else if b = CTRL_K then .msg "Pressed C-k"
  else if b = CTRL_L then .msg "Pressed C-l"
  else if b = CTRL_N then .msg "Pressed C-n"
  else if b = CTRL_P then .msg "Pressed C-p"
  else if b = CTRL_T then .msg "Pressed C-t"
  else if b = CTRL_U then .msg "Pressed C-u"
  else if b = CTRL_W then .msg "Pressed C-w"
  else if b = ESC then .msg "Pressed esc"
  else if b = ENTER then .brk
  else .echo

/-- The `break` arm of the loop: `String::from_utf8(buffer).unwrap()` —
a panic when the accumulated bytes are not valid UTF-8. -/
def finish (buffer : List Nat) : RLResult :=
  match from_utf8 buffer with
  | some s => .ok s
  | none => .panic

/-- The `loop` of `readline_edit`: every byte except `ENTER` is pushed onto
the buffer (`buffer.push(input[0])` runs after every non-break arm); `ENTER`
breaks and the buffer is converted; an exhausted stream blocks forever. -/
def readline_edit_loop (buffer : List Nat) : List Nat → RLResult
  | [] => .diverge
  | b :: rest =>
    match key_action b with
    | .brk => finish buffer
    | _ => readline_edit_loop (buffer ++ [b]) rest

/-- `readline_edit`: run the edit loop with an initially empty buffer. -/
def readline_edit (input : List Nat) : RLResult :=
  readline_edit_loop [] input

/-- `Read::read_line`: consume bytes up to and including the first `\n`
(byte 10), or the whole stream at EOF; fail (`none`) on invalid UTF-8. -/
def take_line : List Nat → List Nat
  | [] => []
  | b :: rest => if b = 10 then [10] else b :: take_line rest

def read_line (stdin : List Nat) : Option String :=
  from_utf8 (take_line stdin)

/-- `readline_raw`: on a tty, enable raw mode (mapping the three errno
classes to their message strings), run `readline_edit`, restore the original
attributes, and surface a restore failure as its own error; on a non-tty,
fall back to a plain `read_line`.  The second component records raw-mode
entry and every `disable_raw_mode` invocation, in order.  A panic or
divergence of the edit loop unwinds/blocks before `disable_raw_mode` runs. -/
def readline_raw (env : Env) : RLResult × List Event :=
  if is_a_tty env then
    match enable_raw_mode env with
    | .error .ENOTTY => (.err "Not a TTY", [])
    | .error .EBADF => (.err "Not a file descriptor", [])
    | .error _ => (.err "Unknown Error", [])
    | .ok original_termios =>
      match readline_edit env.stdin with
      | .panic => (.panic, [.rawEnabled (raw_termios original_termios)])
      | .diverge => (.diverge, [.rawEnabled (raw_termios original_termios)])
      | user_input =>
        match disable_raw_mode env original_termios with
        | .error _ =>
          (.err "Failed to revert to original termios",
            [.rawEnabled (raw_termios original_termios),
             .disableCall original_termios])
        | .ok _ =>
          (user_input,
            [.rawEnabled (raw_termios original_termios),
             .disableCall original_termios])
  else
    match read_line env.stdin with
    | some line => (.ok line, [])
    | none => (.err "stream did not contain valid UTF-8", [])

/-- `readline`: write the prompt (infallible sink in this model), then
dispatch on `is_unsupported_term` — a panic when `TERM` is absent, a plain
`read_line` when the terminal is detected as unsupported, and
`readline_raw` otherwise. -/
def readline (env : Env) : RLResult × List Event :=
  match is_unsupported_term env.term with
  | none => (.panic, [])
  | some true =>
    match read_line env.stdin with
    | some line => (.ok line, [])
    | none => (.err "stream did not contain valid UTF-8", [])
  | some false => readline_raw env

/-! ## Helper lemmas -/

/-- Inversion for a successful `enable_raw_mode`: stdin was a tty, the
returned attributes are exactly what `tcgetattr` produced, and the raw
attributes were installed. -/
theorem enable_raw_mode_ok (env : Env) (orig : Termios)
    (h : enable_raw_mode env = .ok orig) :
    env.isatty = true ∧ env.tcgetattr = .ok orig ∧
    env.tcsetattr (raw_termios orig) = .ok () := by
  by_cases ht : env.isatty
  · refine ⟨ht, ?_⟩
    cases hg : env.tcgetattr with
    | error e => simp [enable_raw_mode, is_a_tty, ht, hg] at h
    | ok t =>
      cases hs : env.tcsetattr (raw_termios t) with
      | error e => simp [enable_raw_mode, is_a_tty, ht, hg, hs] at h
      | ok u =>
        simp [enable_raw_mode, is_a_tty, ht, hg, hs] at h
        subst h
        exact ⟨rfl, by rw [hs]⟩
  · simp [enable_raw_mode, is_a_tty, ht] at h

/-! ## Claims -/

/-- Concrete environment: tty, `TERM=xterm`, all termios syscalls succeed,
stdin delivers a bare Enter. -/
def env1 : Env :=
  { term := some "xterm", isatty := true, tcgetattr := .ok termios0,
    tcsetattr := fun _ => .ok (), stdin := [ENTER] }

/-- C1: whenever `enable_raw_mode` succeeds and `readline_raw` returns to
its caller (any returning path: successful read, edit error, or a restore
failure), the trace of its execution contains exactly one
`disable_raw_mode` invocation, and it restores the captured original
attributes. -/
theorem readline_raw_restores_exactly_once (env : Env) (orig : Termios)
    (r : RLResult) (tr : List Event)
    (hen : enable_raw_mode env = .ok orig)
    (hrun : readline_raw env = (r, tr))
    (hp : r ≠ .panic) (hd : r ≠ .diverge) :
    tr.filter is_disable = [.disableCall orig] := by
  obtain ⟨ht, -, -⟩ := enable_raw_mode_ok env orig hen
  cases hedit : readline_edit env.stdin with
  | panic =>
    have hval : readline_raw env = (.panic, [.rawEnabled (raw_termios orig)]) := by
      simp [readline_raw, is_a_tty, ht, hen, hedit]
    rw [hval] at hrun
    injection hrun with h1 h2
    subst h1
    exact absurd rfl hp
  | diverge =>
    have hval : readline_raw env = (.diverge, [.rawEnabled (raw_termios orig)]) := by
      simp [readline_raw, is_a_tty, ht, hen, hedit]
    rw [hval] at hrun
    injection hrun with h1 h2
    subst h1
    exact absurd rfl hd
  | ok s =>
    cases hdis : disable_raw_mode env orig with
    | error e =>
      have hval : readline_raw env = (.err "Failed to revert to original termios",
          [.rawEnabled (raw_termios orig), .disableCall orig]) := by
        simp [readline_raw, is_a_tty, ht, hen, hedit, hdis]
      rw [hval] at hrun
      injection hrun with h1 h2
      subst h2
      rfl
    | ok u =>
      have hval : readline_raw env = (.ok s,
          [.rawEnabled (raw_termios orig), .disableCall orig]) := by
        simp [readline_raw, is_a_tty, ht, hen, hedit, hdis]
      rw [hval] at hrun
      injection hrun with h1 h2
      subst h2
      rfl
  | err m =>
    cases hdis : disable_raw_mode env orig with
    | error e =>
      have hval : readline_raw env = (.err "Failed to revert to original termios",
          [.rawEnabled (raw_termios orig), .disableCall orig]) := by
        simp [readline_raw, is_a_tty, ht, hen, hedit, hdis]
      rw [hval] at hrun
      injection hrun with h1 h2
      subst h2
      rfl
    | ok u =>
      have hval : readline_raw env = (.err m,
          [.rawEnabled (raw_termios orig), .disableCall orig]) := by
        simp [readline_raw, is_a_tty, ht, hen, hedit, hdis]
      rw [hval] at hrun
      injection hrun with h1 h2
      subst h2
      rfl

/-- Witness for C1 at `env1`: one successful session, exactly one restore. -/
theorem readline_raw_restores_exactly_once_witness :
    List.filter is_disable
      [Event.rawEnabled (raw_termios termios0), Event.disableCall termios0]
      = [Event.disableCall termios0] :=
  readline_raw_restores_exactly_once env1 termios0 (.ok "")
    [Event.rawEnabled (raw_termios termios0), Event.disableCall termios0]
    rfl rfl (by decide) (by decide)

/-- C2 (code bug): the Interrupt byte 3 (Ctrl-C) does not terminate the
read.  Its match arm only prints a message, after which
`buffer.push(input[0])` runs like for any other byte: with input
`[3, ENTER]` the read returns `Ok("\u{3}")` — no `Interrupted` error, and
the byte appears in the returned text. -/
theorem ctrl_c_is_buffered_not_interrupt :
    key_action CTRL_C = .msg "Pressed C-c" ∧
    readline_edit [CTRL_C, ENTER] = .ok (String.mk [Char.ofNat 3]) := by
  constructor
  · rfl
  · rfl

/-- C3 (code bug): recognized control bytes are logged, not consumed: with
input `[1, ENTER]` byte 1 is appended to the buffer and comes back in the
returned text; moreover bytes 9 (TAB) and 127 (BACKSPACE), which the claim
lists as recognized, are not matched at all and fall to the default echo
arm. -/
theorem control_bytes_appear_in_text :
    key_action CTRL_A = .msg "Pressed C-a" ∧
    key_action TAB = .echo ∧
    key_action BACKSPACE = .echo ∧
    readline_edit [CTRL_A, ENTER] = .ok (String.mk [Char.ofNat 1]) := by
  refine ⟨rfl, rfl, rfl, rfl⟩

/-- Concrete environment with `TERM=dumb`, a tty, and the line-buffered
input "hi\n" on stdin. -/
def env4 : Env :=
  { term := some "dumb", isatty := true, tcgetattr := .ok termios0,
    tcsetattr := fun _ => .ok (), stdin := [104, 105, 10] }

/-- C4 (code bug): the detection loop overwrites its flag on every
iteration, so only the last entry "emacs" of `UNSUPPORTED_TERM` is
effectively compared: `TERM=dumb` and `TERM=cons25` are not detected as
unsupported, and with `TERM=dumb` readline enters raw mode — where the
line-buffered input "hi\n" contains no ENTER byte (13), so the edit loop
blocks forever instead of returning the line. -/
theorem dumb_term_enters_raw_mode :
    is_unsupported_term (some "dumb") = some false ∧
    is_unsupported_term (some "cons25") = some false ∧
    is_unsupported_term (some "emacs") = some true ∧
    readline env4 = (.diverge, [.rawEnabled (raw_termios termios0)]) := by
  refine ⟨rfl, rfl, rfl, rfl⟩

/-- C5 (code bug): a malformed UTF-8 byte is pushed into the buffer raw (no
assembly into a scalar value), and when Submit arrives
`String::from_utf8(buffer).unwrap()` panics: with input `[255, ENTER]` the
edit loop panics instead of treating the malformed keystroke as a no-op. -/
theorem invalid_utf8_panics :
    from_utf8 [255] = none ∧
    readline_edit [255, ENTER] = .panic := by
  refine ⟨rfl, rfl⟩

/-- Concrete environment on the unsupported-terminal fallback path
(`TERM=emacs`), stdin "hi\n". -/
def env6 : Env :=
  { term := some "emacs", isatty := false, tcgetattr := .ok termios0,
    tcsetattr := fun _ => .ok (), stdin := [104, 105, 10] }

/-- Concrete environment on the not-a-tty fallback path (`TERM=xterm`,
stdin not a tty), stdin "hi\n". -/
def env6b : Env :=
  { term := some "xterm", isatty := false, tcgetattr := .ok termios0,
    tcsetattr := fun _ => .ok (), stdin := [104, 105, 10] }

/-- C6 (code bug): both fallback paths return the `read_line` buffer
verbatim: for input "hi\n" the successful result is the string "hi\n",
whose last character is the newline — nothing is stripped. -/
theorem fallback_keeps_trailing_newline :
    readline env6 = (.ok "hi\n", []) ∧
    readline env6b = (.ok "hi\n", []) ∧
    "hi\n".data.getLast? = some (Char.ofNat 10) := by
  refine ⟨rfl, rfl, rfl⟩

/-- C7: under the environment assumption that the attribute syscalls
themselves never fail with `ENOTTY` (stdin's tty-ness is checked up front),
`enable_raw_mode` fails with `ENOTTY` exactly when stdin is not a tty; and
whenever it succeeds, the returned value is the unmodified result of
`tcgetattr` while the installed attributes have BRKINT, ICRNL, INPCK,
ISTRIP, IXON, OPOST cleared, CS8 set, ECHO, ICANON, IEXTEN, ISIG cleared,
VMIN = 1 and VTIME = 0. -/
theorem enable_raw_mode_spec (env : Env)
    (hget : ∀ e, env.tcgetattr = .error e → e ≠ .ENOTTY)
    (hset : ∀ t e, env.tcsetattr t = .error e → e ≠ .ENOTTY) :
    (enable_raw_mode env = .error .ENOTTY ↔ env.isatty = false) ∧
    (∀ t, enable_raw_mode env = .ok t →
      env.tcgetattr = .ok t ∧
      env.tcsetattr (raw_termios t) = .ok () ∧
      (raw_termios t).brkint = false ∧ (raw_termios t).icrnl = false ∧
      (raw_termios t).inpck = false ∧ (raw_termios t).istrip = false ∧
      (raw_termios t).ixon = false ∧ (raw_termios t).opost = false ∧
      (raw_termios t).cs8 = true ∧ (raw_termios t).echo = false ∧
      (raw_termios t).icanon = false ∧ (raw_termios t).iexten = false ∧
      (raw_termios t).isig = false ∧ (raw_termios t).vmin = 1 ∧
      (raw_termios t).vtime = 0) := by
  constructor
  · constructor
    · intro h
      by_cases ht : env.isatty
      · exfalso
        cases hg : env.tcgetattr with
        | error e =>
          simp [enable_raw_mode, is_a_tty, ht, hg] at h
          exact hget e hg h
        | ok t =>
          cases hs : env.tcsetattr (raw_termios t) with
          | error e =>
            simp [enable_raw_mode, is_a_tty, ht, hg, hs] at h
            exact hset (raw_termios t) e hs h
          | ok u => simp [enable_raw_mode, is_a_tty, ht, hg, hs] at h
      · simp at ht; exact ht
    · intro h
      simp [enable_raw_mode, is_a_tty, h]
  · intro t h
    obtain ⟨-, hg, hs⟩ := enable_raw_mode_ok env t h
    exact ⟨hg, hs, rfl, rfl, rfl, rfl, rfl, rfl, rfl, rfl, rfl, rfl, rfl,
      rfl, rfl⟩

/-- Concrete non-tty environment with well-behaved syscalls. -/
def env7 : Env :=
  { term := some "xterm", isatty := false, tcgetattr := .ok termios0,
    tcsetattr := fun _ => .ok (), stdin := [] }

/-- Witness for C7 at `env7`: stdin is not a tty, so `enable_raw_mode`
fails with `ENOTTY`. -/
theorem enable_raw_mode_spec_witness :
    enable_raw_mode env7 = .error .ENOTTY :=
  (enable_raw_mode_spec env7
    (fun e h => by simp [env7] at h)
    (fun t e h => by simp [env7] at h)).1.mpr rfl

/-- Concrete environment delivering the bytes of "abc" then Enter. -/
def env8 : Env :=
  { term := some "xterm", isatty := true, tcgetattr := .ok termios0,
    tcsetattr := fun _ => .ok (), stdin := [97, 98, 99, 13] }

/-- C8: typing "abc" then Enter in raw mode returns `Ok("abc")` — exactly
the typed text, with the Enter byte terminating the loop and contributing
nothing (there is no validator in the code, so nothing can reject). -/
theorem readline_abc_roundtrip :
    readline_edit [97, 98, 99, 13] = .ok "abc" ∧
    readline env8 = (.ok "abc",
      [.rawEnabled (raw_termios termios0), .disableCall termios0]) := by
  refine ⟨rfl, rfl⟩

/-- C9: when raw mode was entered, the edit loop produced a line, but
restoring the original attributes fails, `readline_raw` returns the
restore-failure error, not the successfully read line. -/
theorem restore_failure_surfaced (env : Env) (orig : Termios) (s : String)
    (e : Errno)
    (hen : enable_raw_mode env = .ok orig)
    (hedit : readline_edit env.stdin = .ok s)
    (hdis : env.tcsetattr orig = .error e) :
    readline_raw env =
      (.err "Failed to revert to original termios",
       [.rawEnabled (raw_termios orig), .disableCall orig]) := by
  obtain ⟨ht, -, -⟩ := enable_raw_mode_ok env orig hen
  have hdis2 : disable_raw_mode env orig = .error e := by
    simp [disable_raw_mode, hdis]
  simp [readline_raw, is_a_tty, ht, hen, hedit, hdis2]

/-- Concrete environment whose `tcsetattr` accepts the raw attributes
(VMIN = 1) but fails on the original ones (`termios0`, VMIN = 0). -/
def env9 : Env :=
  { term := some "xterm", isatty := true, tcgetattr := .ok termios0,
    tcsetattr := fun t => if t.vmin = 1 then .ok () else .error (.other 5),
    stdin := [ENTER] }

/-- Witness for C9 at `env9`: the read succeeds with "", restoration fails,
and the error is returned. -/
theorem restore_failure_surfaced_witness :
    readline_raw env9 =
      (.err "Failed to revert to original termios",
       [.rawEnabled (raw_termios termios0), .disableCall termios0]) :=
  restore_failure_surfaced env9 termios0 "" (.other 5) rfl rfl rfl

/-- C10: when the `TERM` environment variable is absent,
`is_unsupported_term` unwraps a `None` and every call to `readline` panics
before reading anything — it never returns a `Result`. -/
theorem readline_panics_without_term (env : Env) (h : env.term = none) :
    readline env = (.panic, []) := by
  unfold readline
  rw [h]
  rfl

/-- Concrete environment with `TERM` absent. -/
def env10 : Env :=
  { term := none, isatty := true, tcgetattr := .ok termios0,
    tcsetattr := fun _ => .ok (), stdin := [104, 13] }

/-- Witness for C10 at `env10`. -/
theorem readline_panics_without_term_witness :
    readline env10 = (.panic, []) :=
  readline_panics_without_term env10 rfl

end Rustyline
